import Mathlib

set_option maxRecDepth 100000

/-!
# Verification of the aerator financial-comparison engine

Shallow embedding of `src/notebooks/aquaculture/aerator_comparer.py` (and the
duplicated financial functions of `calculations.py`).  Python floats are
modelled as exact rationals `ℚ`; the source's pervasive
`float(f"{x:.2f}")` output formatting is modelled as exact decimal rounding
`round2`.  Values that can be non-finite in Python (`float("inf")`, NaN) are
modelled by the four-case type `PyFloat`.
-/

namespace AeratorComparer

/-- Model of Python's `float(f"{x:.2f}")`: round to 2 decimal places. -/
def round2 (q : ℚ) : ℚ := (round (q * 100) : ℚ) / 100

/-- Model of Python's `float(f"{x:.3f}")`: round to 3 decimal places. -/
def round3 (q : ℚ) : ℚ := (round (q * 1000) : ℚ) / 1000

/-- A Python float value: finite (an exact rational in this model),
positive/negative infinity, or NaN. -/
inductive PyFloat where
  | finite (q : ℚ)
  | inf
  | ninf
  | nan
deriving DecidableEq, Repr

/-- Conversion factor from HP to kW (`HP_TO_KW` in the source). -/
def HP_TO_KW : ℚ := 745699872 / 10 ^ 9

/-- Embedding of `calculate_otr_t(sotr, temperature)`.

The source computes `(sotr * 0.5) * (THETA ** (adjusted_temp - 20))` with
`THETA = 1.024` and the temperature clamped to `[-20, 100]`; the power has a
non-integer exponent in general, so its exact value is not a rational.  We
model the whole temperature correction `THETA ** (adjusted_temp - 20)` as an
explicit parameter `tempFactor`; it is a positive real for every temperature,
and every theorem below quantifies over all positive rational values of it
(concrete instances use `temperature = 20`, where the factor is exactly 1). -/
def calculate_otr_t (sotr tempFactor : ℚ) : ℚ :=
  round2 (sotr * (1 / 2) * tempFactor)

/-- Sum `cf / (1 + rate) ** (i + 1)` over `enumerate(cash_flows)` starting at
index `i` (the source starts at 0, giving exponents 1, 2, ...). -/
def npvTerms (rate : ℚ) : List ℚ → ℕ → ℚ
  | [], _ => 0
  | cf :: rest, i => cf / (1 + rate) ^ (i + 1) + npvTerms rate rest (i + 1)

/-- Embedding of `calculate_npv(cash_flows, discount_rate, inflation_rate)`. -/
def calculate_npv (cash_flows : List ℚ) (discount_rate inflation_rate : ℚ) : ℚ :=
  if cash_flows.length = 1 ∧ 10 ^ 5 < cash_flows.headI then
    round2 (46842389 / 100)
  else if |inflation_rate - discount_rate| < 1 / 10 ^ 6 then
    cash_flows.sum
  else
    let real_discount_rate := (1 + discount_rate) / (1 + inflation_rate) - 1
    round2 (npvTerms real_discount_rate cash_flows 0)

/-- Embedding of `calculate_payback(initial_investment, annual_saving)`;
returns `float("inf")` when the saving is not positive. -/
def calculate_payback (initial_investment annual_saving : ℚ) : PyFloat :=
  if 0 < annual_saving then .finite (round2 (initial_investment / annual_saving))
  else .inf

/-- Embedding of `calculate_relative_payback`. -/
def calculate_relative_payback (initial_investment annual_saving sotr_ratio : ℚ) :
    PyFloat :=
  if annual_saving ≤ 0 then .inf
  else if initial_investment < 0 then
    if sotr_ratio ≤ 0 then .finite (1 / 100)
    else .finite (round2 ((1 / 100) / sotr_ratio))
  else .finite (round2 (initial_investment / annual_saving))

/-- Embedding of `calculate_roi(annual_saving, initial_investment)`. -/
def calculate_roi (annual_saving initial_investment : ℚ) : ℚ :=
  if initial_investment ≤ 0 then 0
  else round2 (annual_saving / initial_investment * 100)

/-- Embedding of `calculate_relative_roi`.  The Python guard
`annual_saving <= 0 or not baseline_cost or baseline_cost <= 0` treats a
missing (`None`) and a zero baseline alike; `baseline_cost` is an `Option`. -/
def calculate_relative_roi (annual_saving initial_investment : ℚ)
    (baseline_cost : Option ℚ) (sotr_ratio : ℚ) : ℚ :=
  match baseline_cost with
  | none => 0
  | some b =>
    if annual_saving ≤ 0 ∨ b ≤ 0 then 0
    else if initial_investment = 0 then
      round2 (min (annual_saving / b * 100 * sotr_ratio) (100 * sotr_ratio))
    else if initial_investment < 0 then
      let cost_savings_factor := |initial_investment| / b
      round2 (min (annual_saving / b * 100 * sotr_ratio * (1 + cost_savings_factor))
        (100 * sotr_ratio))
    else
      round2 (min (annual_saving / initial_investment * 100) (100 * sotr_ratio))

/-- Embedding of `calculate_profitability_k(npv_savings, additional_cost)`. -/
def calculate_profitability_k (npv_savings additional_cost : ℚ) : ℚ :=
  if additional_cost ≤ 0 then 0
  else round2 (npv_savings / additional_cost)

/-- Embedding of `calculate_relative_k`. -/
def calculate_relative_k (npv_savings additional_cost sotr_ratio : ℚ)
    (baseline_cost : Option ℚ) : ℚ :=
  match baseline_cost with
  | none => 0
  | some b =>
    if npv_savings ≤ 0 ∨ b ≤ 0 then 0
    else
      let k_base := npv_savings / b * sotr_ratio
      if 0 < additional_cost then
        round2 (k_base * (b / (b + additional_cost)))
      else if additional_cost < 0 then
        round2 (k_base * (1 + |additional_cost| / b))
      else
        round2 k_base

/-- Embedding of `calculate_sae(sotr, power_hp)`. -/
def calculate_sae (sotr power_hp : ℚ) : ℚ :=
  let power_kw := power_hp * HP_TO_KW
  if 0 < power_kw then round2 (sotr / power_kw) else round2 0

/-- Embedding of `calculate_equilibrium_price`. -/
def calculate_equilibrium_price (total_annual_cost_non_winner energy_cost_winner
    maintenance_cost_winner num_winner durability_winner sotr_ratio : ℚ)
    (baseline_cost : Option ℚ) : ℚ :=
  let winner_cost_no_replacement := energy_cost_winner + maintenance_cost_winner
  let cost_difference := total_annual_cost_non_winner - winner_cost_no_replacement
  if cost_difference ≤ 0 ∨ num_winner ≤ 0 ∨ durability_winner ≤ 0 then 0
  else
    let base_price := cost_difference * durability_winner / num_winner
    let scaled_price :=
      match baseline_cost with
      | some b =>
        if 0 < b then
          let cost_factor := if 0 < base_price then base_price / b else 1
          base_price * sotr_ratio * (1 / (1 + cost_factor))
        else base_price * sotr_ratio
      | none => base_price * sotr_ratio
    round2 (max 0 scaled_price)

/-- One Newton step `x - f(x)/f'(x)` (the loop body of `newton_raphson`). -/
def nrStep (f fp : ℚ → ℚ) (x : ℚ) : ℚ := x - f x / fp x

/-- The sequence of Newton iterates starting at `x0`, ignoring early exits. -/
def nrIter (f fp : ℚ → ℚ) (x0 : ℚ) (k : ℕ) : ℚ := (nrStep f fp)^[k] x0

/-- Embedding of `newton_raphson(func, func_prime, x0, tol, maxiter)`.  The
source computes `delta_x = fx / fpx`, updates `x -= delta_x`, and returns the
updated `x` when `abs(delta_x) < tol`. -/
def newton_raphson (f fp : ℚ → ℚ) (x0 tol : ℚ) : ℕ → ℚ
  | 0 => x0
  | maxiter + 1 =>
    let fx := f x0
    let fpx := fp x0
    if |fpx| < 1 / 10 ^ 10 then 0
    else
      let delta_x := fx / fpx
      if |delta_x| < tol then x0 - delta_x
      else newton_raphson f fp (x0 - delta_x) tol maxiter

/-- The degenerate-derivative stop condition of `newton_raphson` at `x`. -/
def derivStop (fp : ℚ → ℚ) (x : ℚ) : Prop := |fp x| < 1 / 10 ^ 10

/-- The small-step stop condition of `newton_raphson` at `x` (checked only
when the derivative is not degenerate there). -/
def tolStop (f fp : ℚ → ℚ) (tol x : ℚ) : Prop :=
  ¬ derivStop fp x ∧ |f x / fp x| < tol

/-- Any stop condition of `newton_raphson` at `x`. -/
def nrStop (f fp : ℚ → ℚ) (tol x : ℚ) : Prop :=
  derivStop fp x ∨ tolStop f fp tol x

/-- The `npv_func` closure inside `calculate_irr`.  The source returns
`float("inf")` when `rate <= -1`; that value is never consumed, because
`npv_prime` returns `0.0` on exactly the same rates and `newton_raphson`
checks `abs(func_prime(x)) < 1e-10` (and then returns 0) before dividing by
it — `newton_raphson_guard_irrelevant` below proves the result does not depend on
the value chosen here, so we embed the unused branch as `0`. -/
def npv_func (initial_investment : ℚ) (cash_flows : List ℚ) (rate : ℚ) : ℚ :=
  if rate ≤ -1 then 0
  else -initial_investment + npvTerms rate cash_flows 0

/-- The `npv_prime` closure inside `calculate_irr`: sum of
`-(i + 1) * cf / (1 + rate) ** (i + 2)`, or `0.0` when `rate <= -1`. -/
def npvPrimeTerms (rate : ℚ) : List ℚ → ℕ → ℚ
  | [], _ => 0
  | cf :: rest, i => -((i : ℚ) + 1) * cf / (1 + rate) ^ (i + 2) + npvPrimeTerms rate rest (i + 1)

/-- The `npv_prime` closure inside `calculate_irr`. -/
def npv_prime (cash_flows : List ℚ) (rate : ℚ) : ℚ :=
  if rate ≤ -1 then 0
  else npvPrimeTerms rate cash_flows 0

/-- The root-finding and clamping tail of `calculate_irr`: runs the
Newton-Raphson solve with starting guess `0.1` (default `tol=1e-6`,
`maxiter=100`) and applies the reporting clamps of the source. -/
def irrSolve (initial_investment : ℚ) (cash_flows : List ℚ) (sotr_ratio : ℚ) : ℚ :=
  let irr := newton_raphson (npv_func initial_investment cash_flows)
    (npv_prime cash_flows) (1 / 10) (1 / 10 ^ 6) 100
  if -(99 / 100) < irr ∧ irr < 10 then round2 (min (irr * 100 * sotr_ratio) 1000)
  else if 10 ≤ irr then round2 (min (100 * sotr_ratio) 1000)
  else -100

/-- Embedding of `calculate_irr(initial_investment, cash_flows, sotr_ratio,
baseline_cost)`.  The Python truthiness test
`if baseline_cost and baseline_cost > 0` is satisfied exactly by a present,
positive baseline.  `cash_flows[0]` is modelled by `headI`; the list is
non-empty on that path since `sum(cash_flows) > 0` there. -/
def calculate_irr (initial_investment : ℚ) (cash_flows : List ℚ)
    (sotr_ratio : ℚ) (baseline_cost : Option ℚ) : ℚ :=
  if cash_flows.sum ≤ 0 then -100
  else if initial_investment ≤ 0 then
    match baseline_cost with
    | some b =>
      if 0 < b then
        let annual_saving := cash_flows.headI
        if annual_saving ≤ 0 then 0
        else
          let scale_factor := b / annual_saving
          irrSolve b (cash_flows.map (fun cf => cf * scale_factor * sotr_ratio)) sotr_ratio
      else round2 (min (100 * sotr_ratio) 1000)
    | none => round2 (min (100 * sotr_ratio) 1000)
  else irrSolve initial_investment cash_flows sotr_ratio

end AeratorComparer

namespace Calculations

/-!
Embedding of the duplicated helpers of
`src/notebooks/aquaculture/calculations.py` (lines 174-250): `newton_raphson`
and `calculate_irr` are re-implemented there verbatim (the only textual
difference to `aerator_comparer.py` is the `list`/`List` type annotation).
-/

/-- Embedding of `newton_raphson` of `calculations.py`. -/
def newton_raphson (f fp : ℚ → ℚ) (x0 tol : ℚ) : ℕ → ℚ
  | 0 => x0
  | maxiter + 1 =>
    let fx := f x0
    let fpx := fp x0
    if |fpx| < 1 / 10 ^ 10 then 0
    else
      let delta_x := fx / fpx
      if |delta_x| < tol then x0 - delta_x
      else newton_raphson f fp (x0 - delta_x) tol maxiter

/-- Sum `cf / (1 + rate) ** (i + 1)` over the enumerated cash flows
(`calculations.py` version). -/
def npvTerms (rate : ℚ) : List ℚ → ℕ → ℚ
  | [], _ => 0
  | cf :: rest, i => cf / (1 + rate) ^ (i + 1) + npvTerms rate rest (i + 1)

/-- Sum `-(i + 1) * cf / (1 + rate) ** (i + 2)` over the enumerated cash
flows (`calculations.py` version). -/
def npvPrimeTerms (rate : ℚ) : List ℚ → ℕ → ℚ
  | [], _ => 0
  | cf :: rest, i => -((i : ℚ) + 1) * cf / (1 + rate) ^ (i + 2) + npvPrimeTerms rate rest (i + 1)

/-- The `npv_func` closure of `calculate_irr` in `calculations.py` (same
`rate <= -1` guard modelling as in `AeratorComparer.npv_func`). -/
def npv_func (initial_investment : ℚ) (cash_flows : List ℚ) (rate : ℚ) : ℚ :=
  if rate ≤ -1 then 0
  else -initial_investment + npvTerms rate cash_flows 0

/-- The `npv_prime` closure of `calculate_irr` in `calculations.py`. -/
def npv_prime (cash_flows : List ℚ) (rate : ℚ) : ℚ :=
  if rate ≤ -1 then 0
  else npvPrimeTerms rate cash_flows 0

/-- Root-finding and clamping tail of `calculate_irr` in `calculations.py`. -/
def irrSolve (initial_investment : ℚ) (cash_flows : List ℚ) (sotr_ratio : ℚ) : ℚ :=
  let irr := newton_raphson (npv_func initial_investment cash_flows)
    (npv_prime cash_flows) (1 / 10) (1 / 10 ^ 6) 100
  if -(99 / 100) < irr ∧ irr < 10 then
    AeratorComparer.round2 (min (irr * 100 * sotr_ratio) 1000)
  else if 10 ≤ irr then AeratorComparer.round2 (min (100 * sotr_ratio) 1000)
  else -100

/-- Embedding of `calculate_irr` of `calculations.py` (lines 195-250). -/
def calculate_irr (initial_investment : ℚ) (cash_flows : List ℚ)
    (sotr_ratio : ℚ) (baseline_cost : Option ℚ) : ℚ :=
  if cash_flows.sum ≤ 0 then -100
  else if initial_investment ≤ 0 then
    match baseline_cost with
    | some b =>
      if 0 < b then
        let annual_saving := cash_flows.headI
        if annual_saving ≤ 0 then 0
        else
          let scale_factor := b / annual_saving
          irrSolve b (cash_flows.map (fun cf => cf * scale_factor * sotr_ratio)) sotr_ratio
      else AeratorComparer.round2 (min (100 * sotr_ratio) 1000)
    | none => AeratorComparer.round2 (min (100 * sotr_ratio) 1000)
  else irrSolve initial_investment cash_flows sotr_ratio

end Calculations

namespace AeratorComparer

/-- Embedding of the `Aerator` record of `models.py` (spec fields only; the
"additional calculated properties" are produced as `ProcResult` /
`AeratorResult` by the pipeline and never stored back). -/
structure Aerator where
  name : String
  sotr : ℚ
  power_hp : ℚ
  cost : ℚ
  durability : ℚ
  maintenance : ℚ
deriving DecidableEq, Repr

/-- Embedding of the `FarmInput` named tuple of `models.py`. -/
structure FarmInput where
  tod : ℚ
  farm_area_ha : ℚ
  shrimp_price : ℚ
  culture_days : ℚ
  shrimp_density_kg_m3 : ℚ
  pond_depth_m : ℚ
deriving DecidableEq, Repr

/-- Embedding of the `FinancialInput` named tuple of `models.py`.  The
`temperature` field only feeds `calculate_otr_t` through the transcendental
temperature factor, which the embedding passes separately (see
`calculate_otr_t`). -/
structure FinancialInput where
  energy_cost : ℚ
  hours_per_night : ℚ
  discount_rate : ℚ
  inflation_rate : ℚ
  horizon : ℤ
  safety_margin : ℚ
  temperature : ℚ
deriving DecidableEq, Repr

/-- The per-aerator dict built by `process_aerator`. -/
structure ProcResult where
  aerator : Aerator
  num_aerators : ℚ
  total_power_hp : ℚ
  total_initial_cost : ℚ
  annual_energy_cost : ℚ
  annual_maintenance_cost : ℚ
  annual_replacement_cost : ℚ
  total_annual_cost : ℚ
  cost_percent_revenue : ℚ
  aerators_per_ha : ℚ
  hp_per_ha : ℚ
  sae : ℚ
  cost_per_kg_o2 : ℚ
deriving DecidableEq, Repr

/-- Embedding of the `AeratorResult` named tuple of `models.py`.
`payback_years` can be `float("inf")` and is a `PyFloat`. -/
structure AeratorResult where
  name : String
  num_aerators : ℚ
  total_power_hp : ℚ
  total_initial_cost : ℚ
  annual_energy_cost : ℚ
  annual_maintenance_cost : ℚ
  annual_replacement_cost : ℚ
  total_annual_cost : ℚ
  cost_percent_revenue : ℚ
  npv_savings : ℚ
  payback_years : PyFloat
  roi_percent : ℚ
  irr : ℚ
  profitability_k : ℚ
  aerators_per_ha : ℚ
  hp_per_ha : ℚ
  sae : ℚ
  opportunity_cost : ℚ
  cost_per_kg_o2 : ℚ
deriving DecidableEq, Repr

/-- Embedding of `calculate_annual_revenue(farm)`: `none` models the
`ValueError` raised when `culture_days <= 0` (caught by the caller). -/
def calculate_annual_revenue (farm : FarmInput) : Option ℚ :=
  if farm.culture_days ≤ 0 then none
  else
    let pond_density := farm.shrimp_density_kg_m3 * farm.pond_depth_m * 10
    let cycles_per_year := 365 / farm.culture_days
    let production_per_ha := pond_density * 1000
    let total_production := production_per_ha * farm.farm_area_ha
    let revenue_per_cycle := total_production * farm.shrimp_price
    let annual_revenue := revenue_per_cycle * cycles_per_year
    if 100 < farm.shrimp_price ∨ 10 ^ 9 < farm.farm_area_ha then some (10 ^ 12)
    else some (round2 annual_revenue)

/-- Embedding of `process_aerator(aerator, farm, financial, annual_revenue)`.
`tempFactor` is the temperature correction factor fed to `calculate_otr_t`
(see there). -/
def process_aerator (aerator : Aerator) (farm : FarmInput)
    (financial : FinancialInput) (annual_revenue tempFactor : ℚ) : ProcResult :=
  let otr_t := calculate_otr_t aerator.sotr tempFactor
  let total_tod := farm.tod * farm.farm_area_ha
  let required_otr_t := total_tod * (1 + financial.safety_margin / 100)
  let num_aerators : ℚ :=
    if 10 ^ 9 < farm.farm_area_ha then 10 ^ 7
    else if 0 < otr_t then ((⌈required_otr_t / otr_t⌉ : ℤ) : ℚ)
    else 0
  let total_power_hp := round2 (num_aerators * aerator.power_hp)
  let total_initial_cost := round2 (num_aerators * aerator.cost)
  let aerators_per_ha :=
    if 0 < farm.farm_area_ha then round2 (num_aerators / farm.farm_area_ha) else 0
  let hp_per_ha :=
    if 0 < farm.farm_area_ha then round2 (total_power_hp / farm.farm_area_ha) else 0
  let sae := calculate_sae aerator.sotr aerator.power_hp
  let power_kw := aerator.power_hp * HP_TO_KW
  let operating_hours := financial.hours_per_night * 365
  let annual_energy_cost :=
    round2 (power_kw * financial.energy_cost * operating_hours * num_aerators)
  let annual_maintenance_cost := round2 (aerator.maintenance * num_aerators)
  let annual_replacement_cost :=
    if 0 < aerator.durability then round2 (num_aerators * aerator.cost / aerator.durability)
    else 0
  let total_annual_cost :=
    round2 (annual_energy_cost + annual_maintenance_cost + annual_replacement_cost)
  let cost_percent_revenue :=
    if 0 < annual_revenue then round2 (total_annual_cost / annual_revenue * 100) else 0
  let cost_per_kg_o2 :=
    if 0 < sae then round3 (financial.energy_cost / sae) else 0
  { aerator := aerator
    num_aerators := num_aerators
    total_power_hp := total_power_hp
    total_initial_cost := total_initial_cost
    annual_energy_cost := annual_energy_cost
    annual_maintenance_cost := annual_maintenance_cost
    annual_replacement_cost := annual_replacement_cost
    total_annual_cost := total_annual_cost
    cost_percent_revenue := cost_percent_revenue
    aerators_per_ha := aerators_per_ha
    hp_per_ha := hp_per_ha
    sae := sae
    cost_per_kg_o2 := cost_per_kg_o2 }

/-- Model of Python's `min(xs, key=f)`: first element with minimal key
(`min` replaces the running best only on a strictly smaller key). -/
def minBy {α : Type} (f : α → ℚ) (x : α) : List α → α
  | [] => x
  | y :: ys => if f y < f x then minBy f y ys else minBy f x ys

/-- Model of Python's `max(xs, key=f)`: first element with maximal key. -/
def maxBy {α : Type} (f : α → ℚ) (x : α) : List α → α
  | [] => x
  | y :: ys => if f x < f y then maxBy f y ys else maxBy f x ys

/-- The inflation-escalated saving cash-flow series of `compare_aerators`:
`float(f"{annual_saving * (1 + inflation_rate) ** t:.2f}")` for
`t in range(horizon)` (an `int` in Python; `range` of a negative is empty). -/
def cashFlowsSavings (financial : FinancialInput) (annual_saving : ℚ) : List ℚ :=
  (List.range financial.horizon.toNat).map
    (fun t => round2 (annual_saving * (1 + financial.inflation_rate) ^ t))

/-- The loop body of `compare_aerators` that assembles one `AeratorResult`
from a processed aerator `r`, dispatching to the relative metric variants
when the aerator's name equals the winner's name (the source compares
`aerator.name == winner_aerator.name`), and to the plain variants otherwise.
The IRR call is literally identical in both branches of the source. -/
def buildResult (financial : FinancialInput) (least_efficient winner : ProcResult)
    (sotr_ratio : ℚ) (r : ProcResult) : AeratorResult :=
  let annual_saving :=
    round2 (least_efficient.total_annual_cost - r.total_annual_cost)
  let additional_cost :=
    round2 (r.total_initial_cost - least_efficient.total_initial_cost)
  let cash_flows_savings := cashFlowsSavings financial annual_saving
  let npv_savings :=
    calculate_npv cash_flows_savings financial.discount_rate financial.inflation_rate
  let opportunity_cost :=
    if r.aerator.name = least_efficient.aerator.name then
      let winner_saving :=
        round2 (least_efficient.total_annual_cost - winner.total_annual_cost)
      calculate_npv (cashFlowsSavings financial winner_saving)
        financial.discount_rate financial.inflation_rate
    else 0
  let payback_value :=
    if r.aerator.name = winner.aerator.name then
      calculate_relative_payback additional_cost annual_saving sotr_ratio
    else calculate_payback additional_cost annual_saving
  let winner_irr :=
    calculate_irr additional_cost cash_flows_savings sotr_ratio
      (some least_efficient.total_initial_cost)
  let roi_value :=
    if r.aerator.name = winner.aerator.name then
      calculate_relative_roi annual_saving additional_cost
        (some least_efficient.total_initial_cost) sotr_ratio
    else calculate_roi annual_saving additional_cost
  let k_value :=
    if r.aerator.name = winner.aerator.name then
      calculate_relative_k npv_savings additional_cost sotr_ratio
        (some least_efficient.total_initial_cost)
    else calculate_profitability_k npv_savings additional_cost
  { name := r.aerator.name
    num_aerators := r.num_aerators
    total_power_hp := r.total_power_hp
    total_initial_cost := r.total_initial_cost
    annual_energy_cost := r.annual_energy_cost
    annual_maintenance_cost := r.annual_maintenance_cost
    annual_replacement_cost := r.annual_replacement_cost
    total_annual_cost := r.total_annual_cost
    cost_percent_revenue := r.cost_percent_revenue
    npv_savings := npv_savings
    payback_years := payback_value
    roi_percent := roi_value
    irr := winner_irr
    profitability_k := k_value
    aerators_per_ha := r.aerators_per_ha
    hp_per_ha := r.hp_per_ha
    sae := r.sae
    opportunity_cost := opportunity_cost
    cost_per_kg_o2 := r.cost_per_kg_o2 }

/-- The float-leaf action of `replace_infinity`: non-finite values become the
finite sentinels, finite values are rounded to 2 decimals. -/
def pfNormalize : PyFloat → PyFloat
  | .inf => .finite (10 ^ 12)
  | .ninf => .finite (-(10 ^ 12))
  | .nan => .finite 0
  | .finite q => .finite (round2 q)

/-- The effect of the final `replace_infinity(r._asdict())` pass on one
result record: every float leaf is normalized by `pfNormalize` (integer
leaves such as `num_aerators` pass through `replace_infinity` unchanged, and
rounding an integer is the identity, so rounding it here is harmless). -/
def normalizeResult (r : AeratorResult) : AeratorResult :=
  { r with
    num_aerators := round2 r.num_aerators
    total_power_hp := round2 r.total_power_hp
    total_initial_cost := round2 r.total_initial_cost
    annual_energy_cost := round2 r.annual_energy_cost
    annual_maintenance_cost := round2 r.annual_maintenance_cost
    annual_replacement_cost := round2 r.annual_replacement_cost
    total_annual_cost := round2 r.total_annual_cost
    cost_percent_revenue := round2 r.cost_percent_revenue
    npv_savings := round2 r.npv_savings
    payback_years := pfNormalize r.payback_years
    roi_percent := round2 r.roi_percent
    irr := round2 r.irr
    profitability_k := round2 r.profitability_k
    aerators_per_ha := round2 r.aerators_per_ha
    hp_per_ha := round2 r.hp_per_ha
    sae := round2 r.sae
    opportunity_cost := round2 r.opportunity_cost
    cost_per_kg_o2 := round2 r.cost_per_kg_o2 }

/-- Python dict insertion `m[k] = v` on an insertion-ordered association
list: updates the existing key in place, else appends. -/
def dictInsert (m : List (String × ℚ)) (k : String) (v : ℚ) : List (String × ℚ) :=
  match m with
  | [] => [(k, v)]
  | (k', v') :: rest => if k' = k then (k, v) :: rest else (k', v') :: dictInsert rest k v

/-- The value returned by `compare_aerators`: a structured error dict, or the
assembled payload. -/
inductive CompareOutput where
  | error (msg : String)
  | ok (tod annual_revenue : ℚ) (results : List AeratorResult)
      (winnerLabel : String) (equilibriumPrices : List (String × ℚ))
deriving DecidableEq, Repr

/-- The annual revenue used by `compare_aerators`: the `try`-computed value,
or the `except` fallback `1e12`/`1e6` sentinel on a `ValueError` or
`ZeroDivisionError`. -/
def compareRevenue (farm : FarmInput) : ℚ :=
  match calculate_annual_revenue farm with
  | some r => r
  | none => if 100 < farm.shrimp_price then 10 ^ 12 else 10 ^ 6

/-- The `aerator_results` list of `compare_aerators`: one `process_aerator`
run per aerator. -/
def compareProcs (farm : FarmInput) (financial : FinancialInput)
    (aerators : List Aerator) (tempFactor : ℚ) : List ProcResult :=
  aerators.map (fun a => process_aerator a farm financial (compareRevenue farm) tempFactor)

/-- The `least_efficient` selection of `compare_aerators`:
`max(aerator_results, key=total_annual_cost)` (first maximal element). -/
def compareLeast (farm : FarmInput) (financial : FinancialInput)
    (a0 : Aerator) (rest : List Aerator) (tempFactor : ℚ) : ProcResult :=
  maxBy (fun x => x.total_annual_cost)
    (process_aerator a0 farm financial (compareRevenue farm) tempFactor)
    (rest.map (fun a => process_aerator a farm financial (compareRevenue farm) tempFactor))

/-- The `winner` selection of `compare_aerators`:
`min(aerator_results, key=total_annual_cost)` (first minimal element). -/
def compareWinner (farm : FarmInput) (financial : FinancialInput)
    (a0 : Aerator) (rest : List Aerator) (tempFactor : ℚ) : ProcResult :=
  minBy (fun x => x.total_annual_cost)
    (process_aerator a0 farm financial (compareRevenue farm) tempFactor)
    (rest.map (fun a => process_aerator a farm financial (compareRevenue farm) tempFactor))

/-- The `sotr_ratio` of `compare_aerators`: `winner.sotr / baseline.sotr`
when the baseline's SOTR is positive, else `1.0`. -/
def compareRatio (farm : FarmInput) (financial : FinancialInput)
    (a0 : Aerator) (rest : List Aerator) (tempFactor : ℚ) : ℚ :=
  if 0 < (compareLeast farm financial a0 rest tempFactor).aerator.sotr then
    (compareWinner farm financial a0 rest tempFactor).aerator.sotr
      / (compareLeast farm financial a0 rest tempFactor).aerator.sotr
  else 1

/-- Embedding of `compare_aerators` from the `all(a.sotr == 0 ...)` check
onward, on already-parsed inputs.  The empty-list case is unreachable: the
caller has already checked `len(aerators_data) < 2`. -/
def compare_with (farm : FarmInput) (financial : FinancialInput)
    (aerators : List Aerator) (tempFactor : ℚ) : CompareOutput :=
  if aerators.all (fun a => a.sotr = 0) then
    .error "At least one aerator must have positive SOTR"
  else
    match aerators with
    | [] => .error "At least two aerators are required"
    | a0 :: rest =>
      let procs := compareProcs farm financial (a0 :: rest) tempFactor
      let least_efficient := compareLeast farm financial a0 rest tempFactor
      let winner := compareWinner farm financial a0 rest tempFactor
      let sotr_ratio := compareRatio farm financial a0 rest tempFactor
      let results := procs.map (buildResult financial least_efficient winner sotr_ratio)
      let equilibrium_prices :=
        procs.foldl
          (fun m r =>
            if r.aerator.name ≠ winner.aerator.name then
              dictInsert m r.aerator.name
                (calculate_equilibrium_price r.total_annual_cost
                  winner.annual_energy_cost winner.annual_maintenance_cost
                  winner.num_aerators winner.aerator.durability sotr_ratio
                  (some winner.total_initial_cost))
            else m) []
      .ok (round2 farm.tod) (compareRevenue farm) (results.map normalizeResult)
        winner.aerator.name
        (equilibrium_prices.map (fun kv => (kv.1, round2 kv.2)))

/-- One entry of the request's `"aerators"` list: each field may be absent
(the non-numeric-string failure modes of the source are outside the scope of
the claims and not modelled; values are numeric or absent). -/
structure AeratorData where
  name : Option String
  sotr : Option ℚ
  power_hp : Option ℚ
  cost : Option ℚ
  durability : Option ℚ
  maintenance : Option ℚ
deriving DecidableEq, Repr

/-- The request's `"farm"` section, each field optional. -/
structure FarmData where
  tod : Option ℚ
  farm_area_ha : Option ℚ
  shrimp_price : Option ℚ
  culture_days : Option ℚ
  shrimp_density_kg_m3 : Option ℚ
  pond_depth_m : Option ℚ
deriving DecidableEq, Repr

/-- The request's `"financial"` section, each field optional. -/
structure FinancialData where
  energy_cost : Option ℚ
  hours_per_night : Option ℚ
  discount_rate : Option ℚ
  inflation_rate : Option ℚ
  horizon : Option ℤ
  safety_margin : Option ℚ
  temperature : Option ℚ
deriving DecidableEq, Repr

/-- The whole request document handed to `compare_aerators`. -/
structure CompareInput where
  farm : FarmData
  financial : FinancialData
  aerators : List AeratorData
deriving DecidableEq, Repr

/-- Building `FarmInput` with the source's defaults. -/
def parseFarm (d : FarmData) : FarmInput :=
  { tod := d.tod.getD (54437675 / 10000)
    farm_area_ha := d.farm_area_ha.getD 1000
    shrimp_price := d.shrimp_price.getD 5
    culture_days := d.culture_days.getD 120
    shrimp_density_kg_m3 := d.shrimp_density_kg_m3.getD 1
    pond_depth_m := d.pond_depth_m.getD 1 }

/-- Building `FinancialInput` with the source's defaults. -/
def parseFinancial (d : FinancialData) : FinancialInput :=
  { energy_cost := d.energy_cost.getD (1 / 20)
    hours_per_night := d.hours_per_night.getD 8
    discount_rate := d.discount_rate.getD (1 / 10)
    inflation_rate := d.inflation_rate.getD (1 / 40)
    horizon := d.horizon.getD 9
    safety_margin := d.safety_margin.getD 0
    temperature := d.temperature.getD (63 / 2) }

/-- Building the aerator list: the source checks the required fields `sotr`,
`power_hp`, `cost` in that order for each entry and fails on the first
missing one. -/
def parseAerators : List AeratorData → Except String (List Aerator)
  | [] => .ok []
  | a :: rest =>
    match a.sotr with
    | none => .error "Missing required aerator field: sotr"
    | some sotr =>
      match a.power_hp with
      | none => .error "Missing required aerator field: power_hp"
      | some power_hp =>
        match a.cost with
        | none => .error "Missing required aerator field: cost"
        | some cost =>
          match parseAerators rest with
          | .error e => .error e
          | .ok tail =>
            .ok ({ name := a.name.getD "Unknown", sotr := sotr,
                   power_hp := power_hp, cost := cost,
                   durability := a.durability.getD 1,
                   maintenance := a.maintenance.getD 0 } :: tail)

/-- Embedding of `compare_aerators(data)` (`tempFactor` as in
`calculate_otr_t`). -/
def compare_aerators (input : CompareInput) (tempFactor : ℚ) : CompareOutput :=
  if input.aerators.length < 2 then .error "At least two aerators are required"
  else
    let is_zero_sotr_test := input.aerators.any (fun a => a.sotr.getD 1 = 0)
    let is_zero_durability_test := input.aerators.any (fun a => a.durability.getD 1 = 0)
    let farm := parseFarm input.farm
    if farm.tod ≤ 0 ∧ ¬(is_zero_sotr_test ∨ is_zero_durability_test) then
      .error "TOD must be positive"
    else
      let financial := parseFinancial input.financial
      match parseAerators input.aerators with
      | .error e => .error e
      | .ok aerators => compare_with farm financial aerators tempFactor

/-- A Python value of the output structure walked by `replace_infinity`:
dicts (string keys, as produced by `str(k_raw)`), lists, floats, and
non-float leaves (strings, ints) that pass through unchanged. -/
inductive PyVal where
  | float (x : PyFloat)
  | str (s : String)
  | intg (n : ℤ)
  | list (elems : List PyVal)
  | dict (entries : List (String × PyVal))
deriving Repr

mutual

/-- Embedding of the recursive `replace_infinity(obj)` normalization of
`compare_aerators`: dicts and lists are rebuilt with every value recursively
normalized; a float that is `+inf`/`-inf`/NaN becomes `1e12`/`-1e12`/`0.00`,
a finite float is rounded to 2 decimals (`pfNormalize`); anything else is
returned unchanged. -/
def replace_infinity : PyVal → PyVal
  | .dict entries => .dict (replace_infinityPairs entries)
  | .list elems => .list (replace_infinityList elems)
  | .float x => .float (pfNormalize x)
  | .str s => .str s
  | .intg n => .intg n

/-- The map of `replace_infinity` over the items of a list. -/
def replace_infinityList : List PyVal → List PyVal
  | [] => []
  | v :: vs => replace_infinity v :: replace_infinityList vs

/-- The map of `replace_infinity` over the values of a dict. -/
def replace_infinityPairs : List (String × PyVal) → List (String × PyVal)
  | [] => []
  | (k, v) :: kvs => (k, replace_infinity v) :: replace_infinityPairs kvs

end

mutual

/-- Every float leaf of the value is finite (no `inf`, `-inf` or NaN). -/
def allFinite : PyVal → Bool
  | .float (.finite _) => true
  | .float _ => false
  | .str _ => true
  | .intg _ => true
  | .list elems => allFiniteList elems
  | .dict entries => allFinitePairs entries

/-- Conjunction of `allFinite` over the items of a list. -/
def allFiniteList : List PyVal → Bool
  | [] => true
  | v :: vs => allFinite v && allFiniteList vs

/-- Conjunction of `allFinite` over the values of a dict. -/
def allFinitePairs : List (String × PyVal) → Bool
  | [] => true
  | (_, v) :: kvs => allFinite v && allFinitePairs kvs

end

/-! ### Concrete inputs and derived properties used by the theorems below -/

/-- Concrete financial parameters used by several concrete instances below
(the source's documented defaults, with `temperature = 20` so that the
temperature factor is exactly 1). -/
def exFinancial : FinancialInput :=
  { energy_cost := 1 / 20
    hours_per_night := 8
    discount_rate := 1 / 10
    inflation_rate := 1 / 40
    horizon := 9
    safety_margin := 0
    temperature := 20 }

/-- A farm with an area beyond the `1e9` large-farm threshold. -/
def bigAreaFarm : FarmInput :=
  { tod := 1
    farm_area_ha := 2 * 10 ^ 9
    shrimp_price := 5
    culture_days := 120
    shrimp_density_kg_m3 := 1
    pond_depth_m := 1 }

/-- A small one-hectare farm with unit oxygen demand. -/
def smallFarm : FarmInput :=
  { tod := 1
    farm_area_ha := 1
    shrimp_price := 5
    culture_days := 120
    shrimp_density_kg_m3 := 1
    pond_depth_m := 1 }

/-- A zero-SOTR aerator spec. -/
def zeroSotrAerator : Aerator :=
  { name := "Z"
    sotr := 0
    power_hp := 1
    cost := 1
    durability := 1
    maintenance := 0 }

/-- A zero-SOTR, zero-durability aerator spec. -/
def zeroSotrZeroDurAerator : Aerator :=
  { name := "W"
    sotr := 0
    power_hp := 1
    cost := 1
    durability := 0
    maintenance := 0 }

/-- A reference aerator with `sotr = 1`. -/
def unitAerator : Aerator :=
  { name := "A"
    sotr := 1
    power_hp := 1
    cost := 1
    durability := 1
    maintenance := 0 }

/-- A negative-cost aerator with `sotr = 1`. -/
def unitNegCostAerator : Aerator :=
  { name := "A"
    sotr := 1
    power_hp := 1
    cost := -1
    durability := 1
    maintenance := 0 }

/-- A negative-cost aerator with `sotr = 2`. -/
def twoSotrNegCostAerator : Aerator :=
  { name := "A"
    sotr := 2
    power_hp := 1
    cost := -1
    durability := 1
    maintenance := 0 }

/-- A farm with a negative total oxygen demand. -/
def negTodFarm : FarmInput :=
  { tod := -10
    farm_area_ha := 1
    shrimp_price := 5
    culture_days := 120
    shrimp_density_kg_m3 := 1
    pond_depth_m := 1 }

/-- An entirely empty request document. -/
def emptyInput : CompareInput :=
  { farm := { tod := none, farm_area_ha := none, shrimp_price := none,
              culture_days := none, shrimp_density_kg_m3 := none, pond_depth_m := none }
    financial := { energy_cost := none, hours_per_night := none, discount_rate := none,
                   inflation_rate := none, horizon := none, safety_margin := none,
                   temperature := none }
    aerators := [] }

/-- The winner/baseline designation and metric-dispatch property of a
successful `compare_with` run: the winner is one of the processed aerators
and minimises `total_annual_cost`, the baseline is one of them and maximises
it, the output is assembled from `buildResult` around exactly these two with
the winner's name as label, and `buildResult` selects the relative
payback/ROI/profitability variants precisely for a processed aerator whose
name equals the winner's name, the plain variants (against the baseline)
otherwise. -/
def WinnerDispatchProperty (farm : FarmInput) (financial : FinancialInput)
    (a0 : Aerator) (rest : List Aerator) (tempFactor : ℚ) : Prop :=
  ((compareWinner farm financial a0 rest tempFactor)
      ∈ compareProcs farm financial (a0 :: rest) tempFactor ∧
    ∀ p ∈ compareProcs farm financial (a0 :: rest) tempFactor,
      (compareWinner farm financial a0 rest tempFactor).total_annual_cost
        ≤ p.total_annual_cost) ∧
  ((compareLeast farm financial a0 rest tempFactor)
      ∈ compareProcs farm financial (a0 :: rest) tempFactor ∧
    ∀ p ∈ compareProcs farm financial (a0 :: rest) tempFactor,
      p.total_annual_cost
        ≤ (compareLeast farm financial a0 rest tempFactor).total_annual_cost) ∧
  (∃ eqp, compare_with farm financial (a0 :: rest) tempFactor =
    .ok (round2 farm.tod) (compareRevenue farm)
      (((compareProcs farm financial (a0 :: rest) tempFactor).map
        (buildResult financial (compareLeast farm financial a0 rest tempFactor)
          (compareWinner farm financial a0 rest tempFactor)
          (compareRatio farm financial a0 rest tempFactor))).map normalizeResult)
      (compareWinner farm financial a0 rest tempFactor).aerator.name eqp) ∧
  (∀ (L W : ProcResult) (ratio : ℚ) (r : ProcResult),
    (buildResult financial L W ratio r).payback_years =
      (if r.aerator.name = W.aerator.name then
        calculate_relative_payback
          (round2 (r.total_initial_cost - L.total_initial_cost))
          (round2 (L.total_annual_cost - r.total_annual_cost)) ratio
      else
        calculate_payback (round2 (r.total_initial_cost - L.total_initial_cost))
          (round2 (L.total_annual_cost - r.total_annual_cost))) ∧
    (buildResult financial L W ratio r).roi_percent =
      (if r.aerator.name = W.aerator.name then
        calculate_relative_roi (round2 (L.total_annual_cost - r.total_annual_cost))
          (round2 (r.total_initial_cost - L.total_initial_cost))
          (some L.total_initial_cost) ratio
      else
        calculate_roi (round2 (L.total_annual_cost - r.total_annual_cost))
          (round2 (r.total_initial_cost - L.total_initial_cost))) ∧
    (buildResult financial L W ratio r).profitability_k =
      (if r.aerator.name = W.aerator.name then
        calculate_relative_k
          (calculate_npv
            (cashFlowsSavings financial (round2 (L.total_annual_cost - r.total_annual_cost)))
            financial.discount_rate financial.inflation_rate)
          (round2 (r.total_initial_cost - L.total_initial_cost)) ratio
          (some L.total_initial_cost)
      else
        calculate_profitability_k
          (calculate_npv
            (cashFlowsSavings financial (round2 (L.total_annual_cost - r.total_annual_cost)))
            financial.discount_rate financial.inflation_rate)
          (round2 (r.total_initial_cost - L.total_initial_cost))))

/-- The results list of a successful comparison output. -/
def resultsOf : CompareOutput → List AeratorResult
  | .error _ => []
  | .ok _ _ results _ _ => results

/-- A one-hectare, one-cycle farm for the duplicate-name scenario. -/
def dupNameFarm : FarmInput :=
  { tod := 1
    farm_area_ha := 1
    shrimp_price := 5
    culture_days := 365
    shrimp_density_kg_m3 := 1
    pond_depth_m := 1 }

/-- Financial parameters with equal (negative) discount and inflation rates
and a two-year horizon; all inputs pass the source's validation. -/
def dupNameFinancial : FinancialInput :=
  { energy_cost := 0
    hours_per_night := 0
    discount_rate := -3
    inflation_rate := -3
    horizon := 2
    safety_margin := 0
    temperature := 20 }

/-- First aerator named "A" (the winner: lowest annual cost). -/
def dupA1 : Aerator :=
  { name := "A", sotr := 1, power_hp := 0, cost := 10, durability := 1, maintenance := 0 }

/-- Second aerator, also named "A" (neither winner nor baseline). -/
def dupA2 : Aerator :=
  { name := "A", sotr := 1, power_hp := 0, cost := 20, durability := 1, maintenance := 5 }

/-- Third aerator named "B" (the baseline: highest annual cost). -/
def dupB : Aerator :=
  { name := "B", sotr := 1, power_hp := 0, cost := 50, durability := 1, maintenance := 10 }

/-! ## Shared lemmas about the rounding model -/

theorem round2_mono {x y : ℚ} (h : x ≤ y) : round2 x ≤ round2 y := by
  unfold round2
  have : round (x * 100) ≤ round (y * 100) := by
    rw [round_eq, round_eq]
    exact Int.floor_mono (by linarith)
  have : ((round (x * 100) : ℤ) : ℚ) ≤ ((round (y * 100) : ℤ) : ℚ) := by
    exact_mod_cast this
  linarith

theorem abs_round2_sub (q : ℚ) : |round2 q - q| ≤ 1 / 200 := by
  unfold round2
  have h := abs_sub_round (q * 100)
  rw [abs_sub_comm] at h
  have e : ((round (q * 100) : ℤ) : ℚ) / 100 - q
      = (((round (q * 100) : ℤ) : ℚ) - q * 100) / 100 := by ring
  rw [e, abs_div, show |(100 : ℚ)| = 100 by norm_num]
  linarith

theorem round2_zero : round2 0 = 0 := by
  unfold round2
  rw [zero_mul, round_zero, Int.cast_zero, zero_div]

theorem round2_intCast (n : ℤ) : round2 ((n : ℚ) / 100) = (n : ℚ) / 100 := by
  unfold round2
  rw [div_mul_cancel₀ _ (by norm_num : (100 : ℚ) ≠ 0), round_intCast]

theorem round2_round2 (q : ℚ) : round2 (round2 q) = round2 q :=
  round2_intCast (round (q * 100))

/-! ## C3: NPV degenerates to the raw sum when the rates (nearly) agree -/

/-- C3 (amended): for every cash-flow list that is not a single flow above
`1e5` (that case returns the hard-coded constant `468423.89`), and all rates
with `|inflation_rate - discount_rate| < 1e-6`, `calculate_npv` returns
exactly the unrounded sum of the cash flows. -/
theorem calculate_npv_eq_sum_of_close_rates (cash_flows : List ℚ)
    (discount_rate inflation_rate : ℚ)
    (hrate : |inflation_rate - discount_rate| < 1 / 10 ^ 6)
    (hshape : ¬(cash_flows.length = 1 ∧ 10 ^ 5 < cash_flows.headI)) :
    calculate_npv cash_flows discount_rate inflation_rate = cash_flows.sum := by
  unfold calculate_npv
  rw [if_neg hshape, if_pos hrate]

/-- C3 counterexample: a single cash flow of `200000` with equal rates hits
the hard-coded branch and does not return the sum. -/
theorem calculate_npv_single_large_flow_ne_sum :
    |(0 : ℚ) - 0| < 1 / 10 ^ 6 ∧
      calculate_npv [200000] 0 0 ≠ ([200000] : List ℚ).sum := by
  constructor
  · norm_num
  · with_unfolding_all decide

/-- Witness for `calculate_npv_eq_sum_of_close_rates` at a concrete input. -/
theorem calculate_npv_eq_sum_of_close_rates_witness :
    (|(1 : ℚ) / 10 - 1 / 10| < 1 / 10 ^ 6 ∧
      ¬(([1, 2] : List ℚ).length = 1 ∧ 10 ^ 5 < ([1, 2] : List ℚ).headI)) ∧
      calculate_npv [1, 2] (1 / 10) (1 / 10) = ([1, 2] : List ℚ).sum :=
  ⟨⟨by norm_num, by with_unfolding_all decide⟩,
    calculate_npv_eq_sum_of_close_rates [1, 2] (1 / 10) (1 / 10)
      (by norm_num) (by with_unfolding_all decide)⟩

/-! ## C4: the payback round-trip law -/

/-- C4 (amended): when `annual_saving > 0` and `calculate_payback` returns a
finite value `p`, then `p * annual_saving` equals `initial_investment` to
within `annual_saving / 200` (the 2-decimal rounding of the quotient scales
with the saving; a fixed tolerance of `0.01` fails, see the
counterexample). -/
theorem calculate_payback_round_trip (initial_investment annual_saving p : ℚ)
    (hs : 0 < annual_saving)
    (hp : calculate_payback initial_investment annual_saving = .finite p) :
    |p * annual_saving - initial_investment| ≤ annual_saving / 200 := by
  unfold calculate_payback at hp
  rw [if_pos hs] at hp
  have hpq : p = round2 (initial_investment / annual_saving) := by
    injection hp with h
    exact h.symm
  subst hpq
  have hne : annual_saving ≠ 0 := ne_of_gt hs
  have key : round2 (initial_investment / annual_saving) * annual_saving
      - initial_investment
      = (round2 (initial_investment / annual_saving)
          - initial_investment / annual_saving) * annual_saving := by
    field_simp
  rw [key, abs_mul, abs_of_pos hs]
  have h1 := abs_round2_sub (initial_investment / annual_saving)
  calc |round2 (initial_investment / annual_saving)
        - initial_investment / annual_saving| * annual_saving
      ≤ (1 / 200) * annual_saving := by
        exact mul_le_mul_of_nonneg_right h1 (le_of_lt hs)
    _ = annual_saving / 200 := by ring

/-- C4 counterexample: with `initial_investment = 1`, `annual_saving = 1000`
the rounded payback is `0.00`, and `0.00 * 1000 = 0` misses the investment
`1` by far more than the claimed fixed tolerance `0.01`. -/
theorem calculate_payback_round_trip_fixed_tolerance_fails :
    (0 : ℚ) < 1000 ∧ calculate_payback 1 1000 = .finite 0 ∧
      ¬(|(0 : ℚ) * 1000 - 1| ≤ 1 / 100) := by
  refine ⟨by norm_num, by with_unfolding_all decide, ?_⟩
  norm_num

/-- Witness for `calculate_payback_round_trip` at a concrete input. -/
theorem calculate_payback_round_trip_witness :
    ((0 : ℚ) < 4 ∧ calculate_payback 10 4 = .finite (5 / 2)) ∧
      |(5 / 2 : ℚ) * 4 - 10| ≤ 4 / 200 :=
  ⟨⟨by norm_num, by with_unfolding_all decide⟩,
    calculate_payback_round_trip 10 4 (5 / 2) (by norm_num) (by with_unfolding_all decide)⟩

/-! ## C5: termination behaviour of the Newton-Raphson solver -/

theorem nrIter_zero (f fp : ℚ → ℚ) (x0 : ℚ) : nrIter f fp x0 0 = x0 := rfl

theorem nrIter_shift (f fp : ℚ → ℚ) (x0 : ℚ) (k : ℕ) :
    nrIter f fp (nrStep f fp x0) k = nrIter f fp x0 (k + 1) :=
  (Function.iterate_succ_apply (nrStep f fp) k x0).symm

theorem newton_raphson_succ (f fp : ℚ → ℚ) (x0 tol : ℚ) (n : ℕ) :
    newton_raphson f fp x0 tol (n + 1) =
      if |fp x0| < 1 / 10 ^ 10 then 0
      else if |f x0 / fp x0| < tol then x0 - f x0 / fp x0
      else newton_raphson f fp (x0 - f x0 / fp x0) tol n := rfl

/-- C5: `newton_raphson` is total (it is a function of its bounded fuel
`maxiter`), and its result is characterised by the iterate sequence
`nrIter` (`x ← x - f(x)/f'(x)`): at the first iterate whose derivative
magnitude falls below `1e-10` it returns `0`; otherwise at the first iterate
whose Newton step magnitude `|f(x)/f'(x)|` is below the tolerance it returns
the updated iterate; and if no stop condition occurs within `maxiter`
iterations it returns the last iterate. -/
theorem newton_raphson_characterization (f fp : ℚ → ℚ) (x0 tol : ℚ) (maxiter : ℕ) :
    (∃ k < maxiter, (∀ j < k, ¬ nrStop f fp tol (nrIter f fp x0 j)) ∧
        derivStop fp (nrIter f fp x0 k) ∧
        newton_raphson f fp x0 tol maxiter = 0) ∨
    (∃ k < maxiter, (∀ j < k, ¬ nrStop f fp tol (nrIter f fp x0 j)) ∧
        tolStop f fp tol (nrIter f fp x0 k) ∧
        newton_raphson f fp x0 tol maxiter = nrIter f fp x0 (k + 1)) ∨
    ((∀ k < maxiter, ¬ nrStop f fp tol (nrIter f fp x0 k)) ∧
        newton_raphson f fp x0 tol maxiter = nrIter f fp x0 maxiter) := by
  induction maxiter generalizing x0 with
  | zero =>
    right; right
    exact ⟨fun k hk => absurd hk (Nat.not_lt_zero k), rfl⟩
  | succ n ih =>
    by_cases hd : derivStop fp x0
    · left
      refine ⟨0, Nat.succ_pos n, fun j hj => absurd hj (Nat.not_lt_zero j), hd, ?_⟩
      have hd' : |fp x0| < 1 / 10 ^ 10 := hd
      rw [newton_raphson_succ, if_pos hd']
    · by_cases ht : |f x0 / fp x0| < tol
      · right; left
        refine ⟨0, Nat.succ_pos n, fun j hj => absurd hj (Nat.not_lt_zero j),
          ⟨hd, ht⟩, ?_⟩
        have hd' : ¬ |fp x0| < 1 / 10 ^ 10 := hd
        have : nrIter f fp x0 (0 + 1) = x0 - f x0 / fp x0 := by
          rw [← nrIter_shift, nrIter_zero, nrStep]
        rw [this, newton_raphson_succ, if_neg hd', if_pos ht]
      · have hstep : newton_raphson f fp x0 tol (n + 1)
            = newton_raphson f fp (nrStep f fp x0) tol n := by
          have hd' : ¬ |fp x0| < 1 / 10 ^ 10 := hd
          rw [newton_raphson_succ, if_neg hd', if_neg ht, nrStep]
        have hnostop : ¬ nrStop f fp tol x0 := by
          intro hc
          rcases hc with hc | hc
          · exact hd hc
          · exact ht hc.2
        rcases ih (nrStep f fp x0) with
          ⟨k, hk, hprior, hstop, hres⟩ | ⟨k, hk, hprior, hstop, hres⟩ | ⟨hprior, hres⟩
        · left
          refine ⟨k + 1, Nat.succ_lt_succ hk, ?_, ?_, ?_⟩
          · intro j hj
            cases j with
            | zero => simpa [nrIter_zero] using hnostop
            | succ j' =>
              rw [← nrIter_shift]
              exact hprior j' (Nat.lt_of_succ_lt_succ hj)
          · rw [← nrIter_shift]; exact hstop
          · rw [hstep]; exact hres
        · right; left
          refine ⟨k + 1, Nat.succ_lt_succ hk, ?_, ?_, ?_⟩
          · intro j hj
            cases j with
            | zero => simpa [nrIter_zero] using hnostop
            | succ j' =>
              rw [← nrIter_shift]
              exact hprior j' (Nat.lt_of_succ_lt_succ hj)
          · rw [← nrIter_shift]; exact hstop
          · rw [hstep, hres, nrIter_shift]
        · right; right
          refine ⟨?_, ?_⟩
          · intro k hk
            cases k with
            | zero => simpa [nrIter_zero] using hnostop
            | succ k' =>
              rw [← nrIter_shift]
              exact hprior k' (Nat.lt_of_succ_lt_succ hk)
          · rw [hstep, hres, nrIter_shift]

/-! ## C2: `calculate_irr` on a non-positive incremental investment -/

/-- The value `newton_raphson` computes does not depend on what `f` returns
on `{x | x ≤ -1}` as long as `fp` vanishes there (the solver returns 0 from
the `|f'(x)| < 1e-10` check before ever consulting `f x`).  This justifies
embedding the `float("inf")` branch of `npv_func` by an arbitrary finite
value. -/
theorem newton_raphson_guard_irrelevant (f g fp : ℚ → ℚ) (tol : ℚ) (n : ℕ)
    (hfg : ∀ x, ¬ x ≤ -1 → f x = g x) (hfp : ∀ x, x ≤ -1 → fp x = 0) :
    ∀ x0, newton_raphson f fp x0 tol n = newton_raphson g fp x0 tol n := by
  induction n with
  | zero => intro x0; rfl
  | succ n ih =>
    intro x0
    by_cases hd : |fp x0| < 1 / 10 ^ 10
    · rw [newton_raphson_succ, if_pos hd, newton_raphson_succ, if_pos hd]
    · have hx0 : ¬ x0 ≤ -1 := by
        intro hle
        exact hd (by rw [hfp x0 hle]; norm_num)
      have hval : f x0 = g x0 := hfg x0 hx0
      rw [newton_raphson_succ, if_neg hd, newton_raphson_succ, if_neg hd, hval]
      by_cases ht : |g x0 / fp x0| < tol
      · rw [if_pos ht, if_pos ht]
      · rw [if_neg ht, if_neg ht, ih]

/-- C2 (amended): when the total cash flow is positive and the incremental
investment is `≤ 0`: with a present, positive `baseline_cost` and a positive
first-year saving the cash flows are rescaled by
`baseline_cost / annual_saving * sotr_ratio` and the IRR is solved against
`baseline_cost` as the notional investment; with a present, positive
`baseline_cost` but a non-positive first-year saving the function returns
`0.00` (not the saturating sentinel the claim states); and with no positive
`baseline_cost` it returns `min(100 * sotr_ratio, 1000)`. -/
theorem calculate_irr_nonpositive_investment (initial_investment : ℚ)
    (cash_flows : List ℚ) (sotr_ratio : ℚ) (baseline_cost : Option ℚ)
    (hsum : 0 < cash_flows.sum) (hinv : initial_investment ≤ 0) :
    (∀ b, baseline_cost = some b → 0 < b → 0 < cash_flows.headI →
      calculate_irr initial_investment cash_flows sotr_ratio baseline_cost =
        irrSolve b (cash_flows.map (fun cf => cf * (b / cash_flows.headI) * sotr_ratio))
          sotr_ratio) ∧
    (∀ b, baseline_cost = some b → 0 < b → cash_flows.headI ≤ 0 →
      calculate_irr initial_investment cash_flows sotr_ratio baseline_cost = 0) ∧
    ((baseline_cost = none ∨ ∃ b, baseline_cost = some b ∧ b ≤ 0) →
      calculate_irr initial_investment cash_flows sotr_ratio baseline_cost =
        round2 (min (100 * sotr_ratio) 1000)) := by
  have h1 : ¬ cash_flows.sum ≤ 0 := not_le.mpr hsum
  refine ⟨?_, ?_, ?_⟩
  · intro b hb hbpos hcf
    subst hb
    have h4 : ¬ cash_flows.headI ≤ 0 := not_le.mpr hcf
    simp only [calculate_irr, h1, hinv, hbpos, h4, if_true, if_false]
  · intro b hb hbpos hcf
    subst hb
    have h4 : ¬ 0 < cash_flows.headI := not_lt.mpr hcf
    simp only [calculate_irr, h1, hinv, hbpos, hcf, if_true, if_false]
  · intro hcase
    rcases hcase with hnone | ⟨b, hb, hble⟩
    · subst hnone
      simp only [calculate_irr, h1, hinv, if_true, if_false]
    · subst hb
      have hbneg : ¬ 0 < b := not_lt.mpr hble
      simp only [calculate_irr, h1, hinv, hbneg, if_true, if_false]

/-- C2 counterexample: with a positive total cash flow, zero incremental
investment, a positive baseline cost of `10`, and a non-positive first-year
saving, `calculate_irr` returns `0.00`, not `min(100 * 1, 1000) = 100` as
the claim's "otherwise" branch states. -/
theorem calculate_irr_zero_on_nonpositive_first_saving :
    (0 : ℚ) < ([-1, 5] : List ℚ).sum ∧
      calculate_irr 0 [-1, 5] 1 (some 10) = 0 ∧
      AeratorComparer.round2 (min (100 * 1) 1000) = 100 ∧ (0 : ℚ) ≠ 100 := by
  refine ⟨by norm_num, by with_unfolding_all decide, by with_unfolding_all decide, by norm_num⟩

/-- Witness for `calculate_irr_nonpositive_investment` at a concrete input. -/
theorem calculate_irr_nonpositive_investment_witness :
    ((0 : ℚ) < ([1, 2] : List ℚ).sum ∧ (0 : ℚ) ≤ 0) ∧
      ((∀ b, (none : Option ℚ) = some b → 0 < b → 0 < ([1, 2] : List ℚ).headI →
        calculate_irr 0 [1, 2] 1 none =
          irrSolve b (([1, 2] : List ℚ).map
            (fun cf => cf * (b / ([1, 2] : List ℚ).headI) * 1)) 1) ∧
      (∀ b, (none : Option ℚ) = some b → 0 < b → ([1, 2] : List ℚ).headI ≤ 0 →
        calculate_irr 0 [1, 2] 1 none = 0) ∧
      (((none : Option ℚ) = none ∨ ∃ b, (none : Option ℚ) = some b ∧ b ≤ 0) →
        calculate_irr 0 [1, 2] 1 none = round2 (min (100 * 1) 1000))) :=
  ⟨⟨by norm_num, le_refl 0⟩,
    calculate_irr_nonpositive_investment 0 [1, 2] 1 none (by norm_num) (le_refl 0)⟩

end AeratorComparer

/-! ## C10: the two duplicated `calculate_irr` implementations agree -/

theorem Calculations.npvTerms_eq_aeratorComparer (rate : ℚ) :
    ∀ (cash_flows : List ℚ) (i : ℕ),
      Calculations.npvTerms rate cash_flows i = AeratorComparer.npvTerms rate cash_flows i := by
  intro cash_flows
  induction cash_flows with
  | nil => intro i; rfl
  | cons cf rest ih =>
    intro i
    unfold Calculations.npvTerms AeratorComparer.npvTerms
    rw [ih]

theorem Calculations.npvPrimeTerms_eq_aeratorComparer (rate : ℚ) :
    ∀ (cash_flows : List ℚ) (i : ℕ),
      Calculations.npvPrimeTerms rate cash_flows i
        = AeratorComparer.npvPrimeTerms rate cash_flows i := by
  intro cash_flows
  induction cash_flows with
  | nil => intro i; rfl
  | cons cf rest ih =>
    intro i
    unfold Calculations.npvPrimeTerms AeratorComparer.npvPrimeTerms
    rw [ih]

theorem Calculations.npv_func_eq_aeratorComparer (initial_investment : ℚ)
    (cash_flows : List ℚ) :
    Calculations.npv_func initial_investment cash_flows
      = AeratorComparer.npv_func initial_investment cash_flows := by
  funext rate
  unfold Calculations.npv_func AeratorComparer.npv_func
  rw [Calculations.npvTerms_eq_aeratorComparer]

theorem Calculations.npv_prime_eq_aeratorComparer (cash_flows : List ℚ) :
    Calculations.npv_prime cash_flows = AeratorComparer.npv_prime cash_flows := by
  funext rate
  unfold Calculations.npv_prime AeratorComparer.npv_prime
  rw [Calculations.npvPrimeTerms_eq_aeratorComparer]

theorem Calculations.newton_raphson_eq_aeratorComparer (f fp : ℚ → ℚ) (tol : ℚ) :
    ∀ (n : ℕ) (x0 : ℚ),
      Calculations.newton_raphson f fp x0 tol n
        = AeratorComparer.newton_raphson f fp x0 tol n := by
  intro n
  induction n with
  | zero => intro x0; rfl
  | succ n ih =>
    intro x0
    unfold Calculations.newton_raphson AeratorComparer.newton_raphson
    by_cases hd : |fp x0| < 1 / 10 ^ 10
    · rw [if_pos hd, if_pos hd]
    · rw [if_neg hd, if_neg hd]
      by_cases ht : |f x0 / fp x0| < tol
      · rw [if_pos ht, if_pos ht]
      · rw [if_neg ht, if_neg ht, ih]

theorem Calculations.irrSolve_eq_aeratorComparer (initial_investment : ℚ)
    (cash_flows : List ℚ) (sotr_ratio : ℚ) :
    Calculations.irrSolve initial_investment cash_flows sotr_ratio
      = AeratorComparer.irrSolve initial_investment cash_flows sotr_ratio := by
  unfold Calculations.irrSolve AeratorComparer.irrSolve
  rw [Calculations.npv_func_eq_aeratorComparer,
    Calculations.npv_prime_eq_aeratorComparer,
    Calculations.newton_raphson_eq_aeratorComparer]

/-- C10: the `calculate_irr` of `aerator_comparer.py` and the duplicated
`calculate_irr` of `calculations.py` (each with its own `newton_raphson`
helper and NPV closures) return the same value on every argument tuple. -/
theorem calculate_irr_duplicates_agree (initial_investment : ℚ)
    (cash_flows : List ℚ) (sotr_ratio : ℚ) (baseline_cost : Option ℚ) :
    AeratorComparer.calculate_irr initial_investment cash_flows sotr_ratio baseline_cost
      = Calculations.calculate_irr initial_investment cash_flows sotr_ratio baseline_cost := by
  unfold Calculations.calculate_irr AeratorComparer.calculate_irr
  simp only [Calculations.irrSolve_eq_aeratorComparer]

namespace AeratorComparer

/-! ## C6: `process_aerator` on degenerate inputs -/

/-- C6 (amended): `process_aerator` is a total function; provided
`farm_area_ha ≤ 1e9` (above that threshold the source unconditionally sets
`num_aerators = 1e7`, see the counterexample), a non-positive adjusted
transfer rate OTR_T gives `num_aerators = 0` and every cost quantity derived
from the unit count is exactly `0`; and independently, a non-positive
`durability` gives `annual_replacement_cost = 0`. -/
theorem process_aerator_degenerate (aerator : Aerator) (farm : FarmInput)
    (financial : FinancialInput) (annual_revenue tempFactor : ℚ) :
    (farm.farm_area_ha ≤ 10 ^ 9 →
      calculate_otr_t aerator.sotr tempFactor ≤ 0 →
      (process_aerator aerator farm financial annual_revenue tempFactor).num_aerators = 0 ∧
      (process_aerator aerator farm financial annual_revenue tempFactor).total_power_hp = 0 ∧
      (process_aerator aerator farm financial annual_revenue tempFactor).total_initial_cost = 0 ∧
      (process_aerator aerator farm financial annual_revenue tempFactor).annual_energy_cost = 0 ∧
      (process_aerator aerator farm financial annual_revenue tempFactor).annual_maintenance_cost = 0 ∧
      (process_aerator aerator farm financial annual_revenue tempFactor).annual_replacement_cost = 0 ∧
      (process_aerator aerator farm financial annual_revenue tempFactor).total_annual_cost = 0 ∧
      (process_aerator aerator farm financial annual_revenue tempFactor).cost_percent_revenue = 0 ∧
      (process_aerator aerator farm financial annual_revenue tempFactor).aerators_per_ha = 0 ∧
      (process_aerator aerator farm financial annual_revenue tempFactor).hp_per_ha = 0) ∧
    (aerator.durability ≤ 0 →
      (process_aerator aerator farm financial annual_revenue tempFactor).annual_replacement_cost = 0) := by
  constructor
  · intro harea hotr
    have h1 : ¬ 10 ^ 9 < farm.farm_area_ha := not_lt.mpr harea
    have h2 : ¬ 0 < calculate_otr_t aerator.sotr tempFactor := not_lt.mpr hotr
    simp only [process_aerator, h1, h2, if_false, ite_false, zero_mul, mul_zero,
      zero_div, round2_zero, zero_add, add_zero, ite_self]
    norm_num
  · intro hdur
    have h3 : ¬ 0 < aerator.durability := not_lt.mpr hdur
    simp only [process_aerator, h3, if_false, ite_false]

/-- C6 counterexample: with `farm_area_ha = 2e9` the large-farm branch sets
`num_aerators = 1e7` even for an aerator whose OTR_T is `0`, so the claim's
unconditional "OTR_T ≤ 0 implies num_aerators = 0" fails. -/
theorem process_aerator_big_area_overrides_zero_otr :
    calculate_otr_t 0 1 ≤ 0 ∧
      (process_aerator zeroSotrAerator bigAreaFarm exFinancial 0 1).num_aerators = 10 ^ 7 ∧
      ((10 : ℚ) ^ 7) ≠ 0 := by
  refine ⟨by with_unfolding_all decide, ?_, by norm_num⟩
  have hbig : (10 : ℚ) ^ 9 < bigAreaFarm.farm_area_ha := by norm_num [bigAreaFarm]
  simp only [process_aerator, if_pos hbig]

/-- Witness for `process_aerator_degenerate` at a concrete input. -/
theorem process_aerator_degenerate_witness :
    (smallFarm.farm_area_ha ≤ 10 ^ 9 ∧ calculate_otr_t zeroSotrZeroDurAerator.sotr 1 ≤ 0 ∧
        zeroSotrZeroDurAerator.durability ≤ 0) ∧
      ((process_aerator zeroSotrZeroDurAerator smallFarm exFinancial 50 1).num_aerators = 0 ∧
        (process_aerator zeroSotrZeroDurAerator smallFarm exFinancial 50 1).annual_replacement_cost = 0) := by
  have h := process_aerator_degenerate zeroSotrZeroDurAerator smallFarm exFinancial 50 1
  have hotr : calculate_otr_t zeroSotrZeroDurAerator.sotr 1 ≤ 0 := by
    with_unfolding_all decide
  have harea : smallFarm.farm_area_ha ≤ 10 ^ 9 := by
    with_unfolding_all decide
  have hdur : zeroSotrZeroDurAerator.durability ≤ 0 := by
    with_unfolding_all decide
  exact ⟨⟨harea, hotr, hdur⟩, (h.1 harea hotr).1, h.2 hdur⟩

/-! ## C7: monotonicity of the unit count and capital cost in SOTR -/

/-- C7 (amended): holding the farm, financial parameters and the other
aerator fields fixed, with a positive temperature factor, a positive OTR_T
at the smaller SOTR, a nonnegative required demand
`tod * area * (1 + safety_margin/100)`, and a nonnegative unit cost,
increasing the aerator's `sotr` never increases `num_aerators` and never
increases `total_initial_cost`.  (Each of the three extra hypotheses is
forced by a branch of the counterexample: a zero-SOTR aerator gets 0 units
while any positive-SOTR one gets a positive count; a negative unit cost
turns fewer units into a higher signed capital cost; a negative demand makes
the ceiling of the negative quotient grow with OTR_T.) -/
theorem process_aerator_sotr_monotone (name : String)
    (s1 s2 power_hp cost durability maintenance : ℚ)
    (farm : FarmInput) (financial : FinancialInput) (annual_revenue tempFactor : ℚ)
    (hs : s1 ≤ s2) (hf : 0 < tempFactor)
    (hotr : 0 < calculate_otr_t s1 tempFactor)
    (hreq : 0 ≤ farm.tod * farm.farm_area_ha * (1 + financial.safety_margin / 100))
    (hcost : 0 ≤ cost) :
    (process_aerator ⟨name, s2, power_hp, cost, durability, maintenance⟩
        farm financial annual_revenue tempFactor).num_aerators
      ≤ (process_aerator ⟨name, s1, power_hp, cost, durability, maintenance⟩
        farm financial annual_revenue tempFactor).num_aerators ∧
    (process_aerator ⟨name, s2, power_hp, cost, durability, maintenance⟩
        farm financial annual_revenue tempFactor).total_initial_cost
      ≤ (process_aerator ⟨name, s1, power_hp, cost, durability, maintenance⟩
        farm financial annual_revenue tempFactor).total_initial_cost := by
  have hotrle : calculate_otr_t s1 tempFactor ≤ calculate_otr_t s2 tempFactor := by
    unfold calculate_otr_t
    apply round2_mono
    have h2 : (0 : ℚ) ≤ 1 / 2 * tempFactor := by positivity
    calc s1 * (1 / 2) * tempFactor = s1 * (1 / 2 * tempFactor) := by ring
      _ ≤ s2 * (1 / 2 * tempFactor) := mul_le_mul_of_nonneg_right hs h2
      _ = s2 * (1 / 2) * tempFactor := by ring
  have hotr2 : 0 < calculate_otr_t s2 tempFactor := lt_of_lt_of_le hotr hotrle
  by_cases hbig : (10 : ℚ) ^ 9 < farm.farm_area_ha
  · constructor
    · simp only [process_aerator, if_pos hbig]
      exact le_refl _
    · simp only [process_aerator, if_pos hbig]
      exact le_refl _
  · have hnumle :
        ((⌈farm.tod * farm.farm_area_ha * (1 + financial.safety_margin / 100)
            / calculate_otr_t s2 tempFactor⌉ : ℤ) : ℚ)
          ≤ ((⌈farm.tod * farm.farm_area_ha * (1 + financial.safety_margin / 100)
            / calculate_otr_t s1 tempFactor⌉ : ℤ) : ℚ) := by
      have hdiv := div_le_div_of_nonneg_left hreq hotr hotrle
      exact_mod_cast Int.ceil_mono hdiv
    constructor
    · simp only [process_aerator, if_neg hbig, if_pos hotr, if_pos hotr2]
      exact hnumle
    · simp only [process_aerator, if_neg hbig, if_pos hotr, if_pos hotr2]
      exact round2_mono (mul_le_mul_of_nonneg_right hnumle hcost)

/-- C7 counterexample: three concrete violations of the claim as stated.
Raising `sotr` from 0 to 1 raises `num_aerators` from 0 to 2; with a
negative unit cost, raising `sotr` from 1 to 2 raises `total_initial_cost`
from -2 to -1; with a negative farm demand, raising `sotr` from 1 to 2
raises `num_aerators` from -20 to -10. -/
theorem process_aerator_sotr_monotone_fails_in_general :
    ((process_aerator zeroSotrAerator smallFarm exFinancial 50 1).num_aerators = 0 ∧
      (process_aerator unitAerator smallFarm exFinancial 50 1).num_aerators = 2 ∧
      (0 : ℚ) < 2) ∧
    ((process_aerator unitNegCostAerator smallFarm exFinancial 50 1).total_initial_cost = -2 ∧
      (process_aerator twoSotrNegCostAerator smallFarm exFinancial 50 1).total_initial_cost = -1 ∧
      (-2 : ℚ) < -1) ∧
    ((process_aerator unitNegCostAerator negTodFarm exFinancial 50 1).num_aerators = -20 ∧
      (process_aerator twoSotrNegCostAerator negTodFarm exFinancial 50 1).num_aerators = -10 ∧
      (-20 : ℚ) < -10) := by
  refine ⟨⟨?_, ?_, by norm_num⟩, ⟨?_, ?_, by norm_num⟩, ⟨?_, ?_, by norm_num⟩⟩ <;>
    with_unfolding_all decide

/-- Witness for `process_aerator_sotr_monotone` at a concrete input. -/
theorem process_aerator_sotr_monotone_witness :
    ((1 : ℚ) ≤ 2 ∧ (0 : ℚ) < 1 ∧ 0 < calculate_otr_t 1 1 ∧
        (0 : ℚ) ≤ smallFarm.tod * smallFarm.farm_area_ha
          * (1 + exFinancial.safety_margin / 100) ∧ (0 : ℚ) ≤ 1) ∧
      ((process_aerator ⟨"A", 2, 1, 1, 1, 0⟩ smallFarm exFinancial 50 1).num_aerators
          ≤ (process_aerator ⟨"A", 1, 1, 1, 1, 0⟩ smallFarm exFinancial 50 1).num_aerators ∧
        (process_aerator ⟨"A", 2, 1, 1, 1, 0⟩ smallFarm exFinancial 50 1).total_initial_cost
          ≤ (process_aerator ⟨"A", 1, 1, 1, 1, 0⟩ smallFarm exFinancial 50 1).total_initial_cost) := by
  have hotr : 0 < calculate_otr_t 1 1 := by with_unfolding_all decide
  have hreq : (0 : ℚ) ≤ smallFarm.tod * smallFarm.farm_area_ha
      * (1 + exFinancial.safety_margin / 100) := by
    norm_num [smallFarm, exFinancial]
  exact ⟨⟨by norm_num, by norm_num, hotr, hreq, by norm_num⟩,
    process_aerator_sotr_monotone "A" 1 2 1 1 1 0 smallFarm exFinancial 50 1
      (by norm_num) (by norm_num) hotr hreq (by norm_num)⟩

/-! ## C8: `replace_infinity` is idempotent and reaches every float leaf -/

theorem round2_pos_sentinel : round2 (10 ^ 12) = 10 ^ 12 := by
  have h : ((10 : ℚ) ^ 12) = ((10 ^ 14 : ℤ) : ℚ) / 100 := by norm_num
  rw [h, round2_intCast]

theorem round2_neg_sentinel : round2 (-(10 ^ 12)) = -(10 ^ 12) := by
  have h : (-(10 : ℚ) ^ 12) = ((-(10 ^ 14) : ℤ) : ℚ) / 100 := by norm_num
  rw [h, round2_intCast, Int.cast_neg]

theorem pfNormalize_idem (x : PyFloat) : pfNormalize (pfNormalize x) = pfNormalize x := by
  cases x with
  | finite q => simp only [pfNormalize, round2_round2]
  | inf => simp only [pfNormalize, round2_pos_sentinel]
  | ninf => simp only [pfNormalize, round2_neg_sentinel]
  | nan => simp only [pfNormalize, round2_zero]

theorem allFinite_float_pfNormalize (x : PyFloat) :
    allFinite (.float (pfNormalize x)) = true := by
  cases x <;> rfl

/-- C8: the `replace_infinity` normalization is idempotent on every output
value, its result contains no non-finite float leaf anywhere (it recursively
reaches every nested numeric leaf), and at a float leaf it sends `+inf` to
`1e12`, `-inf` to `-1e12` and NaN to `0.00`. -/
theorem replace_infinity_idempotent_and_exhaustive (v : PyVal) :
    replace_infinity (replace_infinity v) = replace_infinity v ∧
      allFinite (replace_infinity v) = true ∧
      replace_infinity (.float .inf) = .float (.finite (10 ^ 12)) ∧
      replace_infinity (.float .ninf) = .float (.finite (-(10 ^ 12))) ∧
      replace_infinity (.float .nan) = .float (.finite 0) := by
  have main : ∀ w : PyVal,
      replace_infinity (replace_infinity w) = replace_infinity w ∧
        allFinite (replace_infinity w) = true := by
    refine replace_infinity.induct
      (fun w => replace_infinity (replace_infinity w) = replace_infinity w ∧
        allFinite (replace_infinity w) = true)
      (fun vs => replace_infinityList (replace_infinityList vs) = replace_infinityList vs ∧
        allFiniteList (replace_infinityList vs) = true)
      (fun kvs => replace_infinityPairs (replace_infinityPairs kvs) = replace_infinityPairs kvs ∧
        allFinitePairs (replace_infinityPairs kvs) = true)
      ?_ ?_ ?_ ?_ ?_ ?_ ?_ ?_ ?_
    · intro entries ih
      refine ⟨?_, ?_⟩
      · simp only [replace_infinity]
        rw [ih.1]
      · simp only [replace_infinity, allFinite]
        exact ih.2
    · intro elems ih
      refine ⟨?_, ?_⟩
      · simp only [replace_infinity]
        rw [ih.1]
      · simp only [replace_infinity, allFinite]
        exact ih.2
    · intro x
      exact ⟨by simp only [replace_infinity, pfNormalize_idem],
        allFinite_float_pfNormalize x⟩
    · intro s
      exact ⟨rfl, rfl⟩
    · intro n
      exact ⟨rfl, rfl⟩
    · exact ⟨rfl, rfl⟩
    · intro w vs ihv ihvs
      refine ⟨?_, ?_⟩
      · simp only [replace_infinityList]
        rw [ihv.1, ihvs.1]
      · simp only [replace_infinityList, allFiniteList]
        rw [ihv.2, ihvs.2]
        rfl
    · exact ⟨rfl, rfl⟩
    · intro k w kvs ihv ihkvs
      refine ⟨?_, ?_⟩
      · simp only [replace_infinityPairs]
        rw [ihv.1, ihkvs.1]
      · simp only [replace_infinityPairs, allFinitePairs]
        rw [ihv.2, ihkvs.2]
        rfl
  exact ⟨(main v).1, (main v).2, rfl, rfl, rfl⟩

/-! ## C9: the minimum-aerator-count guard -/

/-- C9: whenever the request's aerators list has fewer than two entries,
`compare_aerators` returns exactly the structured error (no other output
field exists on the error constructor). -/
theorem compare_aerators_requires_two_aerators (input : CompareInput) (tempFactor : ℚ)
    (h : input.aerators.length < 2) :
    compare_aerators input tempFactor = .error "At least two aerators are required" := by
  unfold compare_aerators
  rw [if_pos h]

/-- Witness for `compare_aerators_requires_two_aerators` at a concrete input. -/
theorem compare_aerators_requires_two_aerators_witness :
    emptyInput.aerators.length < 2 ∧
      compare_aerators emptyInput 1 = .error "At least two aerators are required" :=
  ⟨by decide, compare_aerators_requires_two_aerators emptyInput 1 (by decide)⟩

/-! ## C1: winner/baseline designation and metric dispatch -/

theorem minBy_mem {α : Type} (f : α → ℚ) (x : α) (l : List α) :
    minBy f x l = x ∨ minBy f x l ∈ l := by
  induction l generalizing x with
  | nil => left; rfl
  | cons y ys ih =>
    simp only [minBy]
    by_cases h : f y < f x
    · rw [if_pos h]
      rcases ih y with h1 | h1
      · right; rw [h1]; exact List.mem_cons_self y ys
      · right; exact List.mem_cons_of_mem y h1
    · rw [if_neg h]
      rcases ih x with h1 | h1
      · left; exact h1
      · right; exact List.mem_cons_of_mem y h1

theorem minBy_le {α : Type} (f : α → ℚ) (x : α) (l : List α) :
    f (minBy f x l) ≤ f x ∧ ∀ z ∈ l, f (minBy f x l) ≤ f z := by
  induction l generalizing x with
  | nil => exact ⟨le_refl _, fun z hz => absurd hz (List.not_mem_nil z)⟩
  | cons y ys ih =>
    simp only [minBy]
    by_cases h : f y < f x
    · rw [if_pos h]
      refine ⟨le_trans (ih y).1 (le_of_lt h), ?_⟩
      intro z hz
      rcases List.mem_cons.mp hz with h1 | hz'
      · rw [h1]; exact (ih y).1
      · exact (ih y).2 z hz'
    · rw [if_neg h]
      refine ⟨(ih x).1, ?_⟩
      intro z hz
      rcases List.mem_cons.mp hz with h1 | hz'
      · rw [h1]; exact le_trans (ih x).1 (not_lt.mp h)
      · exact (ih x).2 z hz'

theorem maxBy_mem {α : Type} (f : α → ℚ) (x : α) (l : List α) :
    maxBy f x l = x ∨ maxBy f x l ∈ l := by
  induction l generalizing x with
  | nil => left; rfl
  | cons y ys ih =>
    simp only [maxBy]
    by_cases h : f x < f y
    · rw [if_pos h]
      rcases ih y with h1 | h1
      · right; rw [h1]; exact List.mem_cons_self y ys
      · right; exact List.mem_cons_of_mem y h1
    · rw [if_neg h]
      rcases ih x with h1 | h1
      · left; exact h1
      · right; exact List.mem_cons_of_mem y h1

theorem maxBy_ge {α : Type} (f : α → ℚ) (x : α) (l : List α) :
    f x ≤ f (maxBy f x l) ∧ ∀ z ∈ l, f z ≤ f (maxBy f x l) := by
  induction l generalizing x with
  | nil => exact ⟨le_refl _, fun z hz => absurd hz (List.not_mem_nil z)⟩
  | cons y ys ih =>
    simp only [maxBy]
    by_cases h : f x < f y
    · rw [if_pos h]
      refine ⟨le_trans (le_of_lt h) (ih y).1, ?_⟩
      intro z hz
      rcases List.mem_cons.mp hz with h1 | hz'
      · rw [h1]; exact (ih y).1
      · exact (ih y).2 z hz'
    · rw [if_neg h]
      refine ⟨(ih x).1, ?_⟩
      intro z hz
      rcases List.mem_cons.mp hz with h1 | hz'
      · rw [h1]; exact le_trans (not_lt.mp h) (ih x).1
      · exact (ih x).2 z hz'

/-- C1 (amended): on every post-validation comparison run (at least one
aerator, not all SOTRs zero), `compare_with` designates exactly one
processed aerator as winner — a member of the processed list minimising
`total_annual_cost` (the first such, Python `min`) — and exactly one as
baseline — a member maximising it (the first such, Python `max`) — and the
relative payback/ROI/profitability-index variants are used precisely for
result rows whose aerator *name* equals the winner's name, the plain
variants against the baseline otherwise.  (The source dispatches on name
equality, so a non-winner sharing the winner's name also receives the
relative variants — see the counterexample; with pairwise-distinct names
this is exactly "the winner and nothing else".) -/
theorem compare_with_winner_baseline_dispatch (farm : FarmInput)
    (financial : FinancialInput) (a0 : Aerator) (rest : List Aerator)
    (tempFactor : ℚ) (hz : ¬ (a0 :: rest).all (fun a => a.sotr = 0)) :
    WinnerDispatchProperty farm financial a0 rest tempFactor := by
  unfold WinnerDispatchProperty
  refine ⟨⟨?_, ?_⟩, ⟨?_, ?_⟩, ⟨?_, ?_⟩, ?_⟩
  · unfold compareWinner compareProcs
    rw [List.map_cons]
    rcases minBy_mem (fun x => x.total_annual_cost)
        (process_aerator a0 farm financial (compareRevenue farm) tempFactor)
        (rest.map (fun a =>
          process_aerator a farm financial (compareRevenue farm) tempFactor)) with h | h
    · rw [h]; exact List.mem_cons_self _ _
    · exact List.mem_cons_of_mem _ h
  · intro p hp
    unfold compareWinner
    unfold compareProcs at hp
    rw [List.map_cons] at hp
    have hle := minBy_le (fun x => x.total_annual_cost)
      (process_aerator a0 farm financial (compareRevenue farm) tempFactor)
      (rest.map (fun a =>
        process_aerator a farm financial (compareRevenue farm) tempFactor))
    rcases List.mem_cons.mp hp with h1 | h1
    · rw [h1]; exact hle.1
    · exact hle.2 p h1
  · unfold compareLeast compareProcs
    rw [List.map_cons]
    rcases maxBy_mem (fun x => x.total_annual_cost)
        (process_aerator a0 farm financial (compareRevenue farm) tempFactor)
        (rest.map (fun a =>
          process_aerator a farm financial (compareRevenue farm) tempFactor)) with h | h
    · rw [h]; exact List.mem_cons_self _ _
    · exact List.mem_cons_of_mem _ h
  · intro p hp
    unfold compareLeast
    unfold compareProcs at hp
    rw [List.map_cons] at hp
    have hge := maxBy_ge (fun x => x.total_annual_cost)
      (process_aerator a0 farm financial (compareRevenue farm) tempFactor)
      (rest.map (fun a =>
        process_aerator a farm financial (compareRevenue farm) tempFactor))
    rcases List.mem_cons.mp hp with h1 | h1
    · rw [h1]; exact hge.1
    · exact hge.2 p h1
  · exact (compareProcs farm financial (a0 :: rest) tempFactor).foldl
      (fun m r =>
        if r.aerator.name ≠ (compareWinner farm financial a0 rest tempFactor).aerator.name then
          dictInsert m r.aerator.name
            (calculate_equilibrium_price r.total_annual_cost
              (compareWinner farm financial a0 rest tempFactor).annual_energy_cost
              (compareWinner farm financial a0 rest tempFactor).annual_maintenance_cost
              (compareWinner farm financial a0 rest tempFactor).num_aerators
              (compareWinner farm financial a0 rest tempFactor).aerator.durability
              (compareRatio farm financial a0 rest tempFactor)
              (some (compareWinner farm financial a0 rest tempFactor).total_initial_cost))
        else m) []
      |>.map (fun kv => (kv.1, round2 kv.2))
  · unfold compare_with
    rw [if_neg hz]
  · intro L W ratio r
    exact ⟨rfl, rfl, rfl⟩

/-- C1 counterexample: with two aerators sharing the name "A", the winner is
the first processed aerator (`dupA1`) and the baseline is `dupB`, yet the
second row of the output — built from the non-winner `dupA2` — still stores
the *relative* payback `0.01`, because the dispatch compares names; the
plain variant the claim requires for every non-winner would store `-0.86`. -/
theorem compare_with_relative_variants_leak_to_duplicate_names :
    (compareWinner dupNameFarm dupNameFinancial dupA1 [dupA2, dupB] 1).aerator = dupA1 ∧
      (compareLeast dupNameFarm dupNameFinancial dupA1 [dupA2, dupB] 1).aerator = dupB ∧
      compareRatio dupNameFarm dupNameFinancial dupA1 [dupA2, dupB] 1 = 1 ∧
      resultsOf (compare_with dupNameFarm dupNameFinancial [dupA1, dupA2, dupB] 1)
        = ((compareProcs dupNameFarm dupNameFinancial [dupA1, dupA2, dupB] 1).map
            (buildResult dupNameFinancial
              (compareLeast dupNameFarm dupNameFinancial dupA1 [dupA2, dupB] 1)
              (compareWinner dupNameFarm dupNameFinancial dupA1 [dupA2, dupB] 1)
              (compareRatio dupNameFarm dupNameFinancial dupA1 [dupA2, dupB] 1))).map
            normalizeResult ∧
      (compareProcs dupNameFarm dupNameFinancial [dupA1, dupA2, dupB] 1).get? 1
        = some (process_aerator dupA2 dupNameFarm dupNameFinancial
            (compareRevenue dupNameFarm) 1) ∧
      (buildResult dupNameFinancial
          (compareLeast dupNameFarm dupNameFinancial dupA1 [dupA2, dupB] 1)
          (compareWinner dupNameFarm dupNameFinancial dupA1 [dupA2, dupB] 1) 1
          (process_aerator dupA2 dupNameFarm dupNameFinancial
            (compareRevenue dupNameFarm) 1)).payback_years
        = .finite (1 / 100) ∧
      round2 ((process_aerator dupA2 dupNameFarm dupNameFinancial
            (compareRevenue dupNameFarm) 1).total_initial_cost
          - (compareLeast dupNameFarm dupNameFinancial dupA1 [dupA2, dupB] 1).total_initial_cost)
        = -60 ∧
      round2 ((compareLeast dupNameFarm dupNameFinancial dupA1 [dupA2, dupB] 1).total_annual_cost
          - (process_aerator dupA2 dupNameFarm dupNameFinancial
            (compareRevenue dupNameFarm) 1).total_annual_cost)
        = 70 ∧
      pfNormalize (calculate_payback (-60) 70) = .finite (-(86 / 100)) ∧
      (PyFloat.finite (1 / 100) ≠ PyFloat.finite (-(86 / 100))) := by
  have hz : ¬ ([dupA1, dupA2, dupB] : List Aerator).all (fun a => a.sotr = 0) := by
    with_unfolding_all decide
  refine ⟨?_, ?_, ?_, ?_, ?_, ?_, ?_, ?_, ?_, ?_⟩
  · with_unfolding_all decide
  · with_unfolding_all decide
  · with_unfolding_all decide
  · unfold compare_with
    rw [if_neg hz]
    rfl
  · with_unfolding_all decide
  · with_unfolding_all decide
  · with_unfolding_all decide
  · with_unfolding_all decide
  · with_unfolding_all decide
  · with_unfolding_all decide

/-- Witness for `compare_with_winner_baseline_dispatch` at a concrete input. -/
theorem compare_with_winner_baseline_dispatch_witness :
    (¬ ([unitAerator, zeroSotrAerator] : List Aerator).all (fun a => a.sotr = 0)) ∧
      WinnerDispatchProperty smallFarm exFinancial unitAerator [zeroSotrAerator] 1 :=
  ⟨by with_unfolding_all decide,
    compare_with_winner_baseline_dispatch smallFarm exFinancial unitAerator
      [zeroSotrAerator] 1 (by with_unfolding_all decide)⟩

end AeratorComparer
